import Mathlib

/-!
Verification development for the configuration core of PyTorch-BigGraph
(`torchbiggraph/config.py`): the override engine (`override_config_dict`),
the schema's global validation (`ConfigSchema.__attrs_post_init__`), the
CLI-boundary parser (`parse_config`) and the `ConfigFileLoader`'s
management of the process-wide module-search path.

Python values are embedded as `RawValue` (strings, ints, floats-as-rationals,
booleans, None, lists and string-keyed dicts); Python type annotations as
`PyType`. Functions imported from `torchbiggraph.schema` (not part of the
sources at hand) are modelled from the specification and marked as such.
-/

namespace TorchBigGraph

/-- Embedding of the Python type annotations that appear as field types of
the schema classes. `list`, `dict` and `optional` stand for the `typing`
constructs `List[...]`, `Dict[...]` and `Optional[...]` (the latter being
`Union[..., None]`); they are not classes. `int`, `float`, `bool`, `str`,
enums and `Schema` record classes are plain Python classes. -/
inductive PyType where
  | int
  | float
  | bool
  | str
  | enum (name : String)
  | list (elem : PyType)
  | dict (key : PyType) (elem : PyType)
  | optional (elem : PyType)
  | record (name : String)
deriving DecidableEq

/-- Embedding of untyped Python values as they appear in a raw configuration
dict: scalars, None, lists and string-keyed dicts. Python floats are
modelled as rationals. -/
inductive RawValue where
  | str (s : String)
  | int (n : Int)
  | float (q : Rat)
  | bool (b : Bool)
  | pyNone
  | listV (xs : List RawValue)
  | dictV (d : List (String × RawValue))

/-- Python `isinstance(param_type, type)`: true exactly for plain classes,
false for the `typing` constructs `List`, `Dict` and `Optional`/`Union`. -/
def is_class : PyType → Bool
  | .list _ => false
  | .dict _ _ => false
  | .optional _ => false
  | _ => true

/-- Python `issubclass(param_type, (int, float))` on a class: true for
`int`, `float` and `bool` (which is a subclass of `int`). -/
def issubclass_int_float : PyType → Bool
  | .int => true
  | .float => true
  | .bool => true
  | _ => false

/-- Python `issubclass(param_type, bool)` on a class. -/
def issubclass_bool : PyType → Bool
  | .bool => true
  | _ => false

/-- Modelled from the spec: `has_origin(param_type, list)` from the module
`torchbiggraph.schema` (whose source is not at hand) checks whether the
typing annotation has origin `list`, i.e. is a `List[...]` construct.
`Optional`/`Union` and `Dict` have different origins, plain classes none. -/
def has_origin_list : PyType → Bool
  | .list _ => true
  | _ => false

/-- Split a character list at the last occurrence of `c`: returns the part
before and the part after that occurrence, or `none` when `c` does not
occur. A split found in the tail (a later occurrence) takes precedence. -/
def rpartitionChars (c : Char) : List Char → Option (List Char × List Char)
  | [] => none
  | x :: xs =>
    match rpartitionChars c xs with
    | some (k, v) => some (x :: k, v)
    | none => if x = c then some ([], xs) else none

/-- Python `override.rpartition("=")`: split at the last `=` into
`(head, separator, tail)`; when no `=` occurs return `("", "", override)`. -/
def rpartition (s : String) : String × String × String :=
  match rpartitionChars '=' s.data with
  | some (k, v) => (String.mk k, "=", String.mk v)
  | none => ("", "", s)

/-- Python single-character `str.split(sep)`: split at every occurrence of
the separator; the empty string yields `[""]`. -/
def splitOnChar (c : Char) : List Char → List (List Char)
  | [] => [[]]
  | x :: xs =>
    match splitOnChar c xs with
    | [] => if x = c then [[], []] else [[x]]
    | y :: ys => if x = c then [] :: y :: ys else (x :: y) :: ys

/-- String-level wrapper of `splitOnChar`, embedding Python
`s.split(c)` for a one-character separator `c`. -/
def pySplit (s : String) (c : Char) : List String :=
  (splitOnChar c s.data).map String.mk

/-- Value of a nonempty list of decimal digits, `none` on any non-digit. -/
def digitsValAux (acc : Nat) : List Char → Option Nat
  | [] => some acc
  | c :: rest =>
    if c.isDigit then digitsValAux (acc * 10 + (c.toNat - '0'.toNat)) rest
    else none

/-- Value of a list of decimal digits; `none` when empty or not all digits. -/
def digitsVal : List Char → Option Nat
  | [] => none
  | l => digitsValAux 0 l

/-- Embedding of Python `int(value)` on a string, restricted to an optional
sign followed by decimal digits (surrounding whitespace, underscores and
other bases are not exercised by this code's callers). Errors mirror the
`ValueError` the builtin raises on unparsable text. -/
def parsePyInt (s : String) : Except Unit Int :=
  match s.data with
  | '+' :: rest =>
    match digitsVal rest with
    | some n => .ok (n : Int)
    | none => .error ()
  | '-' :: rest =>
    match digitsVal rest with
    | some n => .ok (-(n : Int))
    | none => .error ()
  | l =>
    match digitsVal l with
    | some n => .ok (n : Int)
    | none => .error ()

/-- Magnitude part of Python `float(value)` on plain decimal literals:
digits, `digits.digits`, `digits.` or `.digits` (exponents, underscores,
whitespace and `inf`/`nan` are not modelled). -/
def parsePyFloatMag (l : List Char) : Option Rat :=
  match splitOnChar '.' l with
  | [ip] => (digitsVal ip).map (fun n => (n : Rat))
  | [ip, fp] =>
    if ip = [] ∧ fp = [] then none
    else
      let ipv : Option Nat := if ip = [] then some 0 else digitsVal ip
      let fpv : Option (Nat × Nat) :=
        if fp = [] then some (0, 0)
        else (digitsVal fp).map (fun m => (m, fp.length))
      match ipv, fpv with
      | some n, some (m, k) => some ((n : Rat) + (m : Rat) / ((10 : Rat) ^ k))
      | _, _ => none
  | _ => none

/-- Embedding of Python `float(value)` on a string (plain decimal literals,
optional sign), floats modelled as rationals. -/
def parsePyFloat (s : String) : Except Unit Rat :=
  match s.data with
  | '+' :: rest =>
    match parsePyFloatMag rest with
    | some q => .ok q
    | none => .error ()
  | '-' :: rest =>
    match parsePyFloatMag rest with
    | some q => .ok (-q)
    | none => .error ()
  | l =>
    match parsePyFloatMag l with
    | some q => .ok q
    | none => .error ()

/-- Field table of `EntitySchema` (config.py lines 56-76). -/
def entityFields : List (String × PyType) :=
  [("num_partitions", .int),
   ("featurized", .bool),
   ("dimension", .optional .int)]

/-- Field table of `RelationSchema` (config.py lines 79-118). -/
def relationFields : List (String × PyType) :=
  [("name", .str),
   ("lhs", .str),
   ("rhs", .str),
   ("weight", .float),
   ("operator", .str),
   ("all_negs", .bool)]

/-- Field table of `ConfigSchema` (config.py lines 121-395), in source
order with the annotated types of the attr fields. -/
def configFields : List (String × PyType) :=
  [("entities", .dict .str (.record "entity")),
   ("relations", .list (.record "relation")),
   ("dimension", .int),
   ("init_scale", .float),
   ("max_norm", .optional .float),
   ("global_emb", .bool),
   ("comparator", .str),
   ("bias", .bool),
   ("loss_fn", .str),
   ("margin", .float),
   ("entity_path", .str),
   ("edge_paths", .list .str),
   ("checkpoint_path", .str),
   ("init_path", .optional .str),
   ("checkpoint_preservation_interval", .optional .int),
   ("num_epochs", .int),
   ("num_edge_chunks", .optional .int),
   ("max_edges_per_chunk", .int),
   ("bucket_order", .enum "BucketOrder"),
   ("workers", .optional .int),
   ("batch_size", .int),
   ("num_batch_negs", .int),
   ("num_uniform_negs", .int),
   ("disable_lhs_negs", .bool),
   ("disable_rhs_negs", .bool),
   ("lr", .float),
   ("relation_lr", .optional .float),
   ("eval_fraction", .float),
   ("eval_num_batch_negs", .int),
   ("eval_num_uniform_negs", .int),
   ("background_io", .bool),
   ("verbose", .int),
   ("hogwild_delay", .float),
   ("dynamic_relations", .bool),
   ("num_machines", .int),
   ("num_partition_servers", .int),
   ("distributed_init_method", .optional .str),
   ("distributed_tree_init_order", .bool),
   ("num_gpus", .int),
   ("num_groups_for_partition_server", .int),
   ("half_precision", .bool)]

/-- Fields of a record class by its name tag. -/
def fieldsOf : String → List (String × PyType)
  | "entity" => entityFields
  | "relation" => relationFields
  | "config" => configFields
  | _ => []

/-- Lookup in a field table. -/
def lookupField : List (String × PyType) → String → Option PyType
  | [], _ => none
  | (k, t) :: rest, seg => if k = seg then some t else lookupField rest seg

/-- Modelled from the spec: `extract_nested_type` from the module
`torchbiggraph.schema` (whose source is not at hand). It resolves the
semantic type expected at a dotted path against a schema type: a path
segment names a field of the current record; a mapping or sequence type
consumes one key/index segment and descends into its element type; an
unknown field or a descent into a scalar fails with a path error. -/
def extract_nested_type : PyType → List String → Except Unit PyType
  | t, [] => .ok t
  | .record n, seg :: rest =>
    match lookupField (fieldsOf n) seg with
    | some t => extract_nested_type t rest
    | none => .error ()
  | .dict _ elem, _ :: rest => extract_nested_type elem rest
  | .list elem, _ :: rest => extract_nested_type elem rest
  | _, _ :: _ => .error ()

/-- Lookup of a key in a raw dict. -/
def dictGet : List (String × RawValue) → String → Option RawValue
  | [], _ => none
  | (k, v) :: rest, key => if k = key then some v else dictGet rest key

/-- Set a key in a raw dict, overwriting the first binding or appending. -/
def dictSet : List (String × RawValue) → String → RawValue → List (String × RawValue)
  | [], key, v => [(key, v)]
  | (k, w) :: rest, key, v =>
    if k = key then (key, v) :: rest else (k, w) :: dictSet rest key v

/-- Modelled from the spec: `inject_nested_value` from the module
`torchbiggraph.schema` (whose source is not at hand). It walks the raw
structure along the path, creating an empty mapping at each intermediate
segment absent from a dict (never creating sequences implicitly: sequence
elements must already exist and are addressed by a decimal index), and sets
the leaf to the value, overwriting any prior value. The embedding is
functional where the Python mutates in place. -/
def inject_nested_value : RawValue → List String → RawValue → Except Unit RawValue
  | raw, [seg], value =>
    match raw with
    | .dictV d => .ok (.dictV (dictSet d seg value))
    | .listV xs =>
      match digitsVal seg.data with
      | some i => if i < xs.length then .ok (.listV (xs.set i value)) else .error ()
      | none => .error ()
    | _ => .error ()
  | raw, seg :: rest, value =>
    match raw with
    | .dictV d =>
      let child := (dictGet d seg).getD (.dictV [])
      (inject_nested_value child rest value).map (fun c => .dictV (dictSet d seg c))
    | .listV xs =>
      match digitsVal seg.data with
      | some i =>
        if h : i < xs.length then
          (inject_nested_value (xs.get ⟨i, h⟩) rest value).map
            (fun c => .listV (xs.set i c))
        else .error ()
      | none => .error ()
    | _ => .error ()
  | _, [], _ => .error ()

/-- Python `param_type(value)` for a numeric class: `int(...)` or
`float(...)` applied to the current value; applying them to anything but a
string (or a number) raises, embedded as an error. -/
def callNumericType (t : PyType) (v : RawValue) : Except Unit RawValue :=
  match t, v with
  | .int, .str s => (parsePyInt s).map RawValue.int
  | .float, .str s => (parsePyFloat s).map RawValue.float
  | _, _ => .error ()

/-- Coercion step of `override_config_dict` (config.py lines 436-445): if
the resolved type is a `List[...]` construct the textual value is split on
commas into a list of strings; then, if the resolved type is a plain class
that subclasses `int` or `float` but not `bool`, the value is converted by
calling that type. -/
def coerceValue (param_type : PyType) (value : String) : Except Unit RawValue :=
  let v : RawValue :=
    if has_origin_list param_type then .listV ((pySplit value ',').map RawValue.str)
    else .str value
  if is_class param_type && issubclass_int_float param_type && !issubclass_bool param_type then
    callNumericType param_type v
  else .ok v

/-- Body of the per-override loop of `override_config_dict` (config.py
lines 433-446) before the exception wrapper: split at the last `=`, split
the key on dots, resolve the type against `ConfigSchema`, coerce the
textual value and inject it. -/
def overrideOneInner (config_dict : RawValue) (override : String) : Except Unit RawValue := do
  let kv := rpartition override
  let path := pySplit kv.1 '.'
  let param_type ← extract_nested_type (.record "config") path
  let value ← coerceValue param_type kv.2.2
  inject_nested_value config_dict path value

/-- One iteration of `override_config_dict`'s loop with its exception
wrapper (config.py lines 431-448): any failure is caught and re-raised as
a single error whose message carries the original override string. -/
def overrideOne (config_dict : RawValue) (override : String) : Except String RawValue :=
  match overrideOneInner config_dict override with
  | .ok c => .ok c
  | .error _ => .error ("Can't parse override: " ++ override)

/-- Embedding of `override_config_dict` (config.py lines 427-449): the
overrides, a flattened optional list of lists of strings, are applied in
order; the first failing override aborts with its wrapped error. -/
def override_config_dict (config_dict : RawValue) (overrides : Option (List (List String))) :
    Except String RawValue :=
  ((overrides.getD []).flatten).foldlM overrideOne config_dict

/-- Embedding of the `BucketOrder` enum (config.py lines 41-53). -/
inductive BucketOrder where
  | random
  | affinity
  | inside_out
  | outside_in
deriving DecidableEq

/-- Embedding of the validated `EntitySchema` record (config.py lines
56-76), with the source's defaults. -/
structure EntitySchema where
  num_partitions : Int
  featurized : Bool := false
  dimension : Option Int := none

/-- Embedding of the validated `RelationSchema` record (config.py lines
79-118), with the source's defaults; floats as rationals. -/
structure RelationSchema where
  name : String
  lhs : String
  rhs : String
  weight : Rat := 1
  operator : String := "none"
  all_negs : Bool := false

/-- Embedding of the validated `ConfigSchema` record (config.py lines
121-395), fields in source order with the source's defaults; Python floats
as rationals, the entities dict as an association list. -/
structure ConfigSchema where
  entities : List (String × EntitySchema)
  relations : List RelationSchema
  dimension : Int
  init_scale : Rat := 1 / 1000
  max_norm : Option Rat := none
  global_emb : Bool := true
  comparator : String := "cos"
  bias : Bool := false
  loss_fn : String := "ranking"
  margin : Rat := 1 / 10
  entity_path : String
  edge_paths : List String
  checkpoint_path : String
  init_path : Option String := none
  checkpoint_preservation_interval : Option Int := none
  num_epochs : Int := 1
  num_edge_chunks : Option Int := none
  max_edges_per_chunk : Int := 1000000000
  bucket_order : BucketOrder := .inside_out
  workers : Option Int := none
  batch_size : Int := 1000
  num_batch_negs : Int := 50
  num_uniform_negs : Int := 50
  disable_lhs_negs : Bool := false
  disable_rhs_negs : Bool := false
  lr : Rat := 1 / 100
  relation_lr : Option Rat := none
  eval_fraction : Rat := 1 / 20
  eval_num_batch_negs : Int := 1000
  eval_num_uniform_negs : Int := 1000
  background_io : Bool := false
  verbose : Int := 0
  hogwild_delay : Rat := 2
  dynamic_relations : Bool := false
  num_machines : Int := 1
  num_partition_servers : Int := -1
  distributed_init_method : Option String := none
  distributed_tree_init_order : Bool := true
  num_gpus : Int := 0
  num_groups_for_partition_server : Int := 16
  half_precision : Bool := false

/-- The relations loop of `ConfigSchema.__attrs_post_init__` (config.py
lines 400-408): each relation's `lhs` and `rhs` must be keys of the
entities dict, checked in order with the source's error messages; `i` is
the running relation index. -/
def checkRelations (keys : List String) : Nat → List RelationSchema → Except String Unit
  | _, [] => .ok ()
  | i, r :: rest =>
    if r.lhs ∉ keys then
      .error ("Relation type " ++ r.name ++ " (#" ++ toString i ++
        ") has an unknown left-hand side entity type " ++ r.lhs)
    else if r.rhs ∉ keys then
      .error ("Relation type " ++ r.name ++ " (#" ++ toString i ++
        ") has an unknown right-hand side entity type " ++ r.rhs)
    else checkRelations keys (i + 1) rest

/-- Embedding of `ConfigSchema.__attrs_post_init__` (config.py lines
399-422): the relations loop, the dynamic-relations cardinality check and
the mutually-exclusive negative-sampling flags check, in source order. The
two logging-only warnings (logistic loss with cosine comparator, deprecated
`background_io`) do not affect the result and are omitted. -/
def attrs_post_init (c : ConfigSchema) : Except String Unit :=
  match checkRelations (c.entities.map Prod.fst) 0 c.relations with
  | .error e => .error e
  | .ok _ =>
    if c.dynamic_relations && !(c.relations.length == 1) then
      .error "When dynamic relations are in use only one relation type must be defined."
    else if c.disable_lhs_negs && c.disable_rhs_negs then
      .error "Cannot disable negative sampling on both sides."
    else .ok ()

/-- Logging levels used by `parse_config`. -/
inductive LogLevel where
  | critical
  | warning
deriving DecidableEq

/-- A log record: a level and a message. -/
structure LogRecord where
  level : LogLevel
  msg : String

/-- Modelled from the spec: the outcome of `ConfigSchema.from_dict` from
the module `torchbiggraph.schema` (whose source is not at hand). It either
returns a validated configuration, raises the structured validation error
`DeepTypeError`, or raises some other exception. -/
inductive FromDictResult where
  | ok (c : ConfigSchema)
  | deepTypeError (msg : String)
  | otherError (msg : String)

/-- Observable outcome of `parse_config`: a validated configuration, a
clean process exit with the given log records and exit status, or an
uncaught propagating exception. -/
inductive ParseOutcome where
  | ok (c : ConfigSchema)
  | systemExit (logs : List LogRecord) (status : Nat)
  | uncaught (msg : String)

/-- Embedding of `parse_config` (config.py lines 452-459) over the outcome
of `ConfigSchema.from_dict`: a `DeepTypeError` is caught, two critical
diagnostics are logged and the process exits via `SystemExit(1)`; any other
exception propagates uncaught; otherwise the configuration is returned. -/
def parse_config : FromDictResult → ParseOutcome
  | .ok c => .ok c
  | .deepTypeError m =>
    .systemExit
      [⟨.critical, "Error in the configuration file, aborting."⟩, ⟨.critical, m⟩] 1
  | .otherError m => .uncaught m

/-- State of a `ConfigFileLoader` together with the shared `sys.path`:
the list it aliases, its temporary directory's name and whether that
directory still exists on disk. -/
structure LoaderState where
  sysPath : List String
  tmpdirName : String
  dirLive : Bool

/-- Python `list.remove(x)`: removes the first occurrence of `x` by value,
raising `ValueError` when `x` is not present. -/
def listRemove (l : List String) (x : String) : Except String (List String) :=
  if x ∈ l then .ok (l.erase x) else .error "ValueError: list.remove(x): x not in list"

/-- Effect of `ConfigFileLoader.__init__` (config.py lines 478-482) on the
shared `sys.path`: create the unique temporary directory and append its
name, exactly one entry. -/
def loaderAcquire (sysPath : List String) (tmpdir : String) : LoaderState :=
  { sysPath := sysPath ++ [tmpdir], tmpdirName := tmpdir, dirLive := true }

/-- Embedding of `ConfigFileLoader.__del__` (config.py lines 484-486):
`self.sys_path.remove(self.config_dir.name)` followed by
`self.config_dir.cleanup()`. When `remove` raises, the cleanup is never
reached and the error propagates out of the release. -/
def loaderDel (st : LoaderState) : Except String LoaderState :=
  match listRemove st.sysPath st.tmpdirName with
  | .error e => .error e
  | .ok p => .ok { sysPath := p, tmpdirName := st.tmpdirName, dirLive := false }

/-! Helper lemmas. -/

/-- When the separator does not occur, `rpartitionChars` finds nothing. -/
theorem rpartitionChars_eq_none (c : Char) :
    ∀ l : List Char, c ∉ l → rpartitionChars c l = none := by
  intro l
  induction l with
  | nil => intro _; rfl
  | cons x xs ih =>
    intro h
    have hx : x ≠ c := fun hx => h (hx ▸ List.mem_cons_self x xs)
    have hxs : c ∉ xs := fun hm => h (List.mem_cons_of_mem x hm)
    simp [rpartitionChars, ih hxs, hx]

/-- When the separator occurs, `rpartitionChars` splits at its last
occurrence: the input is recomposed exactly and the tail part is free of
the separator. -/
theorem rpartitionChars_split (c : Char) :
    ∀ l : List Char, c ∈ l →
      ∃ k v, rpartitionChars c l = some (k, v) ∧ k ++ c :: v = l ∧ c ∉ v := by
  intro l
  induction l with
  | nil => intro h; exact absurd h (List.not_mem_nil c)
  | cons x xs ih =>
    intro h
    by_cases hm : c ∈ xs
    · obtain ⟨k, v, he, hsplit, hnv⟩ := ih hm
      exact ⟨x :: k, v, by simp [rpartitionChars, he], by simp [hsplit], hnv⟩
    · have hx : x = c := by
        rcases List.mem_cons.mp h with h1 | h2
        · exact h1.symm
        · exact absurd h2 hm
      exact ⟨[], xs,
        by simp [rpartitionChars, rpartitionChars_eq_none c xs hm, hx],
        by simp [hx], hm⟩

/-- When the relations loop succeeds, every relation's `lhs` and `rhs` are
keys of the entities dict. -/
theorem checkRelations_ok_mem (keys : List String) :
    ∀ (i : Nat) (rels : List RelationSchema), checkRelations keys i rels = .ok () →
      ∀ r ∈ rels, r.lhs ∈ keys ∧ r.rhs ∈ keys := by
  intro i rels
  induction rels generalizing i with
  | nil => intro _ r hr; exact absurd hr (List.not_mem_nil r)
  | cons head tail ih =>
    intro h r hr
    by_cases h1 : head.lhs ∈ keys
    · by_cases h2 : head.rhs ∈ keys
      · simp only [checkRelations, h1, h2, not_true_eq_false, if_false] at h
        rcases List.mem_cons.mp hr with rfl | hr2
        · exact ⟨h1, h2⟩
        · exact ih (i + 1) h r hr2
      · simp [checkRelations, h1, h2] at h
    · simp [checkRelations, h1] at h

/-- Removing an element absent from the prefix erases exactly the given
occurrence, leaving the prefix and the suffix untouched. -/
theorem erase_append_middle (a : String) (rest : List String) :
    ∀ p : List String, a ∉ p → (p ++ a :: rest).erase a = p ++ rest := by
  intro p
  induction p with
  | nil => intro _; simp [List.erase_cons_head]
  | cons x xs ih =>
    intro hp
    have hxa : x ≠ a := fun h => hp (h ▸ List.mem_cons_self x xs)
    have hxs : a ∉ xs := fun hm => hp (List.mem_cons_of_mem x hm)
    simp only [List.cons_append, List.erase_cons]
    simp [beq_iff_eq, hxa, ih hxs]

/-! Claim theorems. -/

/-- C1 counterexample: for the override string `comparator=a=b`, whose
intended textual value `a=b` contains `=`, the split at the last `=` yields
path text `comparator=a` and value `b`; the value `a=b` is not carried
through intact — the override fails with a wrapped error instead of
injecting `a=b` at `comparator`. -/
theorem override_value_with_eq_not_intact :
    (rpartition "comparator=a=b").1 = "comparator=a" ∧
    (rpartition "comparator=a=b").2.2 = "b" ∧
    overrideOne (.dictV []) "comparator=a=b" =
      .error "Can't parse override: comparator=a=b" :=
  ⟨rfl, rfl, rfl⟩

/-- C1 (amended): for every override string containing at least one `=`,
the engine splits it at the last `=` into a path part and a value part —
the parts recompose to the original string and the value part never
contains `=`. Hence `=` is tolerated inside the path text (when a later
`=` follows), not inside the value: a textual value containing `=` is not
carried through intact. -/
theorem override_splits_at_last_eq (ov : String) (h : '=' ∈ ov.data) :
    (rpartition ov).1.data ++ '=' :: (rpartition ov).2.2.data = ov.data ∧
    '=' ∉ (rpartition ov).2.2.data := by
  obtain ⟨k, v, he, hsplit, hnv⟩ := rpartitionChars_split '=' ov.data h
  simp only [rpartition, he]
  exact ⟨hsplit, hnv⟩

/-- C1 witness: the amended split property evaluated on `a=b=c`. -/
theorem override_splits_at_last_eq_witness :
    '=' ∈ "a=b=c".data ∧
    ((rpartition "a=b=c").1.data ++ '=' :: (rpartition "a=b=c").2.2.data = "a=b=c".data ∧
      '=' ∉ (rpartition "a=b=c").2.2.data) :=
  ⟨by decide, override_splits_at_last_eq "a=b=c" (by decide)⟩

/-- C2: a path resolving to a non-boolean numeric scalar class has its
textual value parsed as that numeric type — `int` text becomes the parsed
integer, `float` text the parsed float — and in particular the override
`dimension=400` injects the integer `400`, not the string `"400"`; a
boolean-typed field is never numerically coerced, its text passing through
as a string. -/
theorem numeric_coercion_spec :
    (∀ (v : String) (n : Int), parsePyInt v = .ok n →
        coerceValue .int v = .ok (.int n)) ∧
    (∀ (v : String) (q : Rat), parsePyFloat v = .ok q →
        coerceValue .float v = .ok (.float q)) ∧
    (∀ v : String, coerceValue .bool v = .ok (.str v)) ∧
    overrideOne (.dictV []) "dimension=400" = .ok (.dictV [("dimension", .int 400)]) ∧
    overrideOne (.dictV []) "bias=1" = .ok (.dictV [("bias", .str "1")]) := by
  refine ⟨?_, ?_, fun v => rfl, rfl, rfl⟩
  · intro v n h
    simp [coerceValue, has_origin_list, is_class, issubclass_int_float,
      issubclass_bool, callNumericType, h, Except.map]
  · intro v q h
    simp [coerceValue, has_origin_list, is_class, issubclass_int_float,
      issubclass_bool, callNumericType, h, Except.map]

/-- C2 witness: the numeric conjuncts evaluated on concrete texts. -/
theorem numeric_coercion_spec_witness :
    coerceValue .int "400" = .ok (.int 400) ∧
    coerceValue .float "3" = .ok (.float 3) :=
  ⟨numeric_coercion_spec.1 "400" 400 rfl, numeric_coercion_spec.2.1 "3" 3 rfl⟩

/-- C3: a path resolving to a list type has its textual value split on `,`
into a list of strings, and in particular the override
`edge_paths=/a,/b,/c` injects the list `["/a", "/b", "/c"]`. -/
theorem list_coercion_spec :
    (∀ (e : PyType) (v : String),
        coerceValue (.list e) v = .ok (.listV ((pySplit v ',').map RawValue.str))) ∧
    overrideOne (.dictV []) "edge_paths=/a,/b,/c" =
      .ok (.dictV [("edge_paths", .listV [.str "/a", .str "/b", .str "/c"])]) :=
  ⟨fun _ _ => rfl, rfl⟩

/-- C4: every override either fully succeeds or fails with the single
wrapping error message carrying the original override string verbatim;
concretely an unknown path, an unparsable number and a string with no `=`
each produce that wrapped error, and a failing override aborts
`override_config_dict` with it. -/
theorem override_error_wrapping :
    (∀ (cfg : RawValue) (ov : String),
        (∃ c, overrideOne cfg ov = .ok c) ∨
        overrideOne cfg ov = .error ("Can't parse override: " ++ ov)) ∧
    overrideOne (.dictV []) "no_such_field=5" =
      .error "Can't parse override: no_such_field=5" ∧
    overrideOne (.dictV []) "dimension=abc" =
      .error "Can't parse override: dimension=abc" ∧
    override_config_dict (.dictV []) (some [["dimension=400", "bogus"]]) =
      .error "Can't parse override: bogus" := by
  refine ⟨?_, rfl, rfl, rfl⟩
  intro cfg ov
  cases h : overrideOneInner cfg ov with
  | ok c => exact Or.inl ⟨c, by simp [overrideOne, h]⟩
  | error e => exact Or.inr (by simp [overrideOne, h])

/-- C5: a configuration accepted by the schema's global validation has
referentially intact relations — every relation's `lhs` and `rhs` are keys
of the entities dict — and a configuration whose relation references an
absent entity type fails validation with the diagnostic naming that
relation and its index. -/
theorem relation_refs_validated :
    (∀ c : ConfigSchema, attrs_post_init c = .ok () →
        ∀ r ∈ c.relations,
          r.lhs ∈ c.entities.map Prod.fst ∧ r.rhs ∈ c.entities.map Prod.fst) ∧
    attrs_post_init
        { entities := [("person", { num_partitions := 1 })],
          relations := [{ name := "follows", lhs := "user", rhs := "person" }],
          dimension := 100, entity_path := "/e", edge_paths := ["/p"],
          checkpoint_path := "/c" } =
      .error "Relation type follows (#0) has an unknown left-hand side entity type user" := by
  refine ⟨?_, rfl⟩
  intro c hok r hr
  cases hcre : checkRelations (c.entities.map Prod.fst) 0 c.relations with
  | error e => simp [attrs_post_init, hcre] at hok
  | ok u =>
    cases u
    exact checkRelations_ok_mem _ 0 c.relations hcre r hr

/-- C5 witness: the integrity conclusion evaluated on a valid concrete
configuration. -/
theorem relation_refs_validated_witness :
    ({ name := "follows", lhs := "user", rhs := "user" } : RelationSchema).lhs ∈
        ([("user", ({ num_partitions := 1 } : EntitySchema))].map Prod.fst) ∧
    ({ name := "follows", lhs := "user", rhs := "user" } : RelationSchema).rhs ∈
        ([("user", ({ num_partitions := 1 } : EntitySchema))].map Prod.fst) :=
  relation_refs_validated.1
    { entities := [("user", { num_partitions := 1 })],
      relations := [{ name := "follows", lhs := "user", rhs := "user" }],
      dimension := 100, entity_path := "/e", edge_paths := ["/p"],
      checkpoint_path := "/c" }
    rfl _ (List.mem_singleton.mpr rfl)

/-- C6: validation fails whenever both negative-sampling-disable flags are
set, and consequently no configuration accepted by validation has both
flags set. -/
theorem neg_flags_mutually_exclusive :
    (∀ c : ConfigSchema, c.disable_lhs_negs = true → c.disable_rhs_negs = true →
        ∃ m, attrs_post_init c = .error m) ∧
    (∀ c : ConfigSchema, attrs_post_init c = .ok () →
        ¬(c.disable_lhs_negs = true ∧ c.disable_rhs_negs = true)) := by
  have h1 : ∀ c : ConfigSchema, c.disable_lhs_negs = true → c.disable_rhs_negs = true →
      ∃ m, attrs_post_init c = .error m := by
    intro c hl hr
    cases hcre : checkRelations (c.entities.map Prod.fst) 0 c.relations with
    | error e => exact ⟨e, by simp [attrs_post_init, hcre]⟩
    | ok u =>
      cases u
      by_cases hd : (c.dynamic_relations && !(c.relations.length == 1)) = true
      · exact ⟨"When dynamic relations are in use only one relation type must be defined.",
          by simp [attrs_post_init, hcre, hd]⟩
      · exact ⟨"Cannot disable negative sampling on both sides.",
          by simp [attrs_post_init, hcre, hd, hl, hr]⟩
  refine ⟨h1, ?_⟩
  rintro c hok ⟨hl, hr⟩
  obtain ⟨m, hm⟩ := h1 c hl hr
  rw [hok] at hm
  exact Except.noConfusion hm

/-- C6 witness: a concrete configuration with both flags set is rejected. -/
theorem neg_flags_mutually_exclusive_witness :
    ∃ m, attrs_post_init
        { entities := [("user", { num_partitions := 1 })],
          relations := [{ name := "follows", lhs := "user", rhs := "user" }],
          dimension := 100, entity_path := "/e", edge_paths := ["/p"],
          checkpoint_path := "/c", disable_lhs_negs := true,
          disable_rhs_negs := true } = .error m :=
  neg_flags_mutually_exclusive.1 _ rfl rfl

/-- C7: a validation failure from `from_dict` is caught by `parse_config`,
two critical diagnostics are logged and the process exits cleanly with the
non-zero status 1, while any other error propagates uncaught and a valid
configuration is returned unchanged. -/
theorem parse_config_exit_behavior :
    (∀ m, parse_config (.deepTypeError m) =
        .systemExit
          [⟨.critical, "Error in the configuration file, aborting."⟩, ⟨.critical, m⟩] 1) ∧
    (∀ m logs status, parse_config (.deepTypeError m) = .systemExit logs status →
        status ≠ 0 ∧ ∃ l ∈ logs, l.level = .critical) ∧
    (∀ m, parse_config (.otherError m) = .uncaught m) ∧
    (∀ c, parse_config (.ok c) = .ok c) := by
  refine ⟨fun m => rfl, ?_, fun m => rfl, fun c => rfl⟩
  intro m logs status h
  rw [show parse_config (.deepTypeError m) =
      .systemExit
        [⟨.critical, "Error in the configuration file, aborting."⟩, ⟨.critical, m⟩] 1
    from rfl] at h
  injection h with hlogs hstatus
  subst hlogs
  subst hstatus
  exact ⟨one_ne_zero, ⟨.critical, "Error in the configuration file, aborting."⟩,
    List.mem_cons_self _ _, rfl⟩

/-- C7 witness: the exit-status conjunct evaluated at a concrete message. -/
theorem parse_config_exit_behavior_witness :
    (1 : Nat) ≠ 0 ∧
    ∃ l ∈ [(⟨.critical, "Error in the configuration file, aborting."⟩ : LogRecord),
        ⟨.critical, "boom"⟩], l.level = LogLevel.critical :=
  parse_config_exit_behavior.2.1 "boom"
    [⟨.critical, "Error in the configuration file, aborting."⟩, ⟨.critical, "boom"⟩] 1 rfl

/-- C8: evaluation of the loader release at a failing input. A first
release removes the loader's temporary-directory entry from the shared
module-search path; invoking release a second time (when the entry is
already gone) raises `ValueError` from `list.remove` instead of returning
silently, contradicting the contract that release must not throw when
invoked multiple times. -/
theorem loader_del_second_invocation_raises :
    loaderDel { sysPath := ["/usr/lib", "/tmp/torchbiggraph_config_abc"],
                tmpdirName := "/tmp/torchbiggraph_config_abc", dirLive := true } =
      .ok { sysPath := ["/usr/lib"], tmpdirName := "/tmp/torchbiggraph_config_abc",
            dirLive := false } ∧
    loaderDel { sysPath := ["/usr/lib"], tmpdirName := "/tmp/torchbiggraph_config_abc",
                dirLive := false } =
      .error "ValueError: list.remove(x): x not in list" :=
  ⟨rfl, rfl⟩

/-- C9: acquisition appends exactly the loader's own temporary-directory
entry to the shared module-search path; release removes exactly that entry,
identified by value, leaving the prefix before it and every entry after it
— in particular another concurrently-active loader's entry — unchanged, as
shown by the interleaved acquire/acquire/release/release sequence of two
loaders restoring the original path. -/
theorem loader_syspath_frame :
    (∀ (p : List String) (tmpdir : String),
        (loaderAcquire p tmpdir).sysPath = p ++ [tmpdir]) ∧
    (∀ (p rest : List String) (a : String), a ∉ p →
        listRemove (p ++ a :: rest) a = .ok (p ++ rest)) ∧
    (∀ (p : List String) (a b : String), a ∉ p → b ∉ p → a ≠ b →
        listRemove (loaderAcquire (loaderAcquire p a).sysPath b).sysPath a =
          .ok (p ++ [b]) ∧
        listRemove (p ++ [b]) b = .ok p) := by
  have hmid : ∀ (p rest : List String) (a : String), a ∉ p →
      listRemove (p ++ a :: rest) a = .ok (p ++ rest) := by
    intro p rest a hp
    have hmem : a ∈ p ++ a :: rest :=
      List.mem_append_right p (List.mem_cons_self a rest)
    rw [listRemove, if_pos hmem, erase_append_middle a rest p hp]
  refine ⟨fun p tmpdir => rfl, hmid, ?_⟩
  intro p a b ha hb hab
  constructor
  · have : (loaderAcquire (loaderAcquire p a).sysPath b).sysPath = p ++ a :: [b] := by
      simp [loaderAcquire]
    rw [this, hmid p [b] a ha]
  · have : p ++ [b] = p ++ b :: [] := rfl
    rw [this, hmid p [] b hb, List.append_nil]

/-- C9 witness: the frame property evaluated on two concrete loaders over
a concrete initial path. -/
theorem loader_syspath_frame_witness :
    listRemove
        (loaderAcquire (loaderAcquire ["/usr/lib"] "/tmp/torchbiggraph_config_a").sysPath
          "/tmp/torchbiggraph_config_b").sysPath "/tmp/torchbiggraph_config_a" =
      .ok (["/usr/lib"] ++ ["/tmp/torchbiggraph_config_b"]) ∧
    listRemove (["/usr/lib"] ++ ["/tmp/torchbiggraph_config_b"])
        "/tmp/torchbiggraph_config_b" = .ok ["/usr/lib"] :=
  loader_syspath_frame.2.2 ["/usr/lib"] "/tmp/torchbiggraph_config_a"
    "/tmp/torchbiggraph_config_b" (by decide) (by decide) (by decide)

/-- C10: a path resolving to an `Optional[...]` annotation — such as the
`workers`, `max_norm` and `num_edge_chunks` fields — is not a plain class,
so its textual value is neither split nor numerically coerced and is
injected as a string, as with `workers=4` injecting the string `"4"`. -/
theorem optional_numeric_passthrough :
    (∀ (t : PyType) (v : String), coerceValue (.optional t) v = .ok (.str v)) ∧
    extract_nested_type (.record "config") ["workers"] = .ok (.optional .int) ∧
    extract_nested_type (.record "config") ["max_norm"] = .ok (.optional .float) ∧
    extract_nested_type (.record "config") ["num_edge_chunks"] = .ok (.optional .int) ∧
    overrideOne (.dictV []) "workers=4" = .ok (.dictV [("workers", .str "4")]) :=
  ⟨fun _ _ => rfl, rfl, rfl, rfl, rfl⟩

end TorchBigGraph
